import Mathlib

/-!
Shallow embedding of `src/weather.py` (an MCP weather server) and of the
claims about it.  JSON values are modelled by the inductive `Json`;
Python-level failures (KeyError, TypeError, ...) by `PyErr`; the network by
an environment `Env` mapping each outbound request to a transport-level
outcome.  Every effectful handler returns its result together with the list
of outbound requests it performed, in order.
-/

namespace Weather

/-- JSON values, as parsed from an HTTP response body. -/
inductive Json where
  | null
  | bool (b : Bool)
  | num (n : Int)
  | str (s : String)
  | arr (xs : List Json)
  | obj (kvs : List (String × Json))

/-- Python-level exceptions that the embedded code can raise. -/
inductive PyErr where
  | keyError (k : String)
  | typeError
  | attributeError
  | transportError
  | httpStatusError
  | jsonDecodeError
deriving DecidableEq, Repr

/-- First-match lookup in an association list (Python dict access semantics;
dicts have unique keys, so first match is the match). -/
def lookupKv : List (String × Json) → String → Option Json
  | [], _ => none
  | (k, v) :: kvs, key => if k == key then some v else lookupKv kvs key

/-- Lookup in a header mapping (string-valued dict). -/
def lookupStr : List (String × String) → String → Option String
  | [], _ => none
  | (k, v) :: kvs, key => if k == key then some v else lookupStr kvs key

/-- Python truthiness of a JSON value (`bool(x)`). -/
def pyTruthy : Json → Bool
  | Json.null => false
  | Json.bool b => b
  | Json.num n => n != 0
  | Json.str s => s != ""
  | Json.arr xs => !xs.isEmpty
  | Json.obj kvs => !kvs.isEmpty

/-- The single-quote character, used by Python `repr` of strings. -/
def quoteChar : String := String.singleton (Char.ofNat 39)

mutual
/-- Python `str()` of a JSON value, as interpolated by an f-string. -/
def pyStr : Json → String
  | Json.null => "None"
  | Json.bool true => "True"
  | Json.bool false => "False"
  | Json.num n => toString n
  | Json.str s => s
  | Json.arr xs => "[" ++ pyReprArr xs ++ "]"
  | Json.obj kvs => "\x7b" ++ pyReprObj kvs ++ "\x7d"

/-- Python `repr()` of a JSON value (escaping inside strings not modelled;
no claim exercises it). -/
def pyRepr : Json → String
  | Json.null => "None"
  | Json.bool true => "True"
  | Json.bool false => "False"
  | Json.num n => toString n
  | Json.str s => quoteChar ++ s ++ quoteChar
  | Json.arr xs => "[" ++ pyReprArr xs ++ "]"
  | Json.obj kvs => "\x7b" ++ pyReprObj kvs ++ "\x7d"

/-- Comma-separated `repr` of list elements. -/
def pyReprArr : List Json → String
  | [] => ""
  | [x] => pyRepr x
  | x :: y :: xs => pyRepr x ++ ", " ++ pyReprArr (y :: xs)

/-- Comma-separated `repr` of dict entries. -/
def pyReprObj : List (String × Json) → String
  | [] => ""
  | [(k, v)] => quoteChar ++ k ++ quoteChar ++ ": " ++ pyRepr v
  | (k, v) :: e :: kvs =>
      quoteChar ++ k ++ quoteChar ++ ": " ++ pyRepr v ++ ", " ++ pyReprObj (e :: kvs)
end

/-- Python subscript `v[key]` with a string key: dict lookup raising
`KeyError` when absent; every non-dict value raises `TypeError`
(including `None`, lists and strings, which need integer indices). -/
def pySubscript (v : Json) (key : String) : Except PyErr Json :=
  match v with
  | Json.obj kvs =>
      match lookupKv kvs key with
      | some x => Except.ok x
      | none => Except.error (PyErr.keyError key)
  | _ => Except.error PyErr.typeError

/-- Python `dict.get(key, default)`; on a non-dict receiver the attribute
access itself raises (`AttributeError`). -/
def dictGet (v : Json) (key : String) (default : Json) : Except PyErr Json :=
  match v with
  | Json.obj kvs => Except.ok ((lookupKv kvs key).getD default)
  | _ => Except.error PyErr.attributeError

/-- Embedding of `format_alert` from `src/weather.py` (lines 107-116): subscript
`feature["properties"]`, then build the f-string block with
`props.get(field, default)` for the five fields. -/
def format_alert (feature : Json) : Except PyErr String :=
  match pySubscript feature "properties" with
  | Except.error e => Except.error e
  | Except.ok props =>
    match dictGet props "event" (Json.str "Unknown") with
    | Except.error e => Except.error e
    | Except.ok ev =>
      match dictGet props "areaDesc" (Json.str "Unknown") with
      | Except.error e => Except.error e
      | Except.ok ar =>
        match dictGet props "severity" (Json.str "Unknown") with
        | Except.error e => Except.error e
        | Except.ok sv =>
          match dictGet props "description" (Json.str "No description available") with
          | Except.error e => Except.error e
          | Except.ok de =>
            match dictGet props "instruction" (Json.str "No specific instructions provided") with
            | Except.error e => Except.error e
            | Except.ok ins =>
              Except.ok ("\nEvent: " ++ pyStr ev ++
                "\nArea: " ++ pyStr ar ++
                "\nSeverity: " ++ pyStr sv ++
                "\nDescription: " ++ pyStr de ++
                "\nInstructions: " ++ pyStr ins ++ "\n")

/-- Python slicing `v[:5]`: slicing a list or string takes the first five items; every
other value raises `TypeError`. -/
def pySlice5 : Json → Except PyErr Json
  | Json.arr xs => Except.ok (Json.arr (xs.take 5))
  | Json.str s => Except.ok (Json.str (String.mk (s.toList.take 5)))
  | _ => Except.error PyErr.typeError

/-- Python iteration `for x in v`: lists yield elements, dicts their keys,
strings their characters; other values raise `TypeError`. -/
def pyIter : Json → Except PyErr (List Json)
  | Json.arr xs => Except.ok xs
  | Json.obj kvs => Except.ok (kvs.map (fun kv => Json.str kv.1))
  | Json.str s => Except.ok (s.toList.map (fun c => Json.str (String.singleton c)))
  | _ => Except.error PyErr.typeError

/-- Is `needle` a contiguous sublist of `hay`? -/
def listInfix (needle : List Char) : List Char → Bool
  | [] => needle.isEmpty
  | c :: t => List.isPrefixOf needle (c :: t) || listInfix needle t

/-- Python membership `s in v` for a string operand: key membership for a
dict, element equality for a list, substring test for a string;
non-container values raise `TypeError`. -/
def pyContainsStr (v : Json) (s : String) : Except PyErr Bool :=
  match v with
  | Json.obj kvs => Except.ok (kvs.any (fun kv => kv.1 == s))
  | Json.arr xs =>
      Except.ok (xs.any (fun x => match x with
        | Json.str t => t == s
        | _ => false))
  | Json.str t => Except.ok (listInfix s.toList t.toList)
  | _ => Except.error PyErr.typeError

/-- The Python value a fetcher result denotes: `None` for absence. -/
def optToPy : Option Json → Json
  | none => Json.null
  | some j => j

/-- Outbound HTTP requests the server can make, distinguished by the
call site (they carry different headers in the source). -/
inductive Request where
  | nwsGet (url : String)
  | userinfoGet (authtoken : String)
  | metaGet (url : String)
deriving DecidableEq, Repr

/-- Transport-level failures of `httpx` (raised by `client.get`). -/
inductive TransportErr where
  | timeout
  | connectError
deriving DecidableEq, Repr

/-- A raw HTTP response: status code and the JSON parse of its body
(`none` when the body is not valid JSON, so `response.json()` raises). -/
structure HttpResponse where
  status : Nat
  jsonBody : Option Json

/-- The network: what each outbound request would return. -/
def Env : Type := Request → Except TransportErr HttpResponse

/-- Embedding of `client.get(...)`, `response.raise_for_status()` (httpx raises for any
non-2xx status), `response.json()` — the body shared by every fetch in the
source, with each failure surfacing as the exception it raises. -/
def http_get_chain (env : Env) (req : Request) : Except PyErr Json :=
  match env req with
  | Except.error _ => Except.error PyErr.transportError
  | Except.ok r =>
      if 200 ≤ r.status ∧ r.status < 300 then
        match r.jsonBody with
        | some j => Except.ok j
        | none => Except.error PyErr.jsonDecodeError
      else Except.error PyErr.httpStatusError

def NWS_API_BASE : String := "https://api.weather.gov"

def USER_AGENT : String := "weather-app/1.0"

def AUTH0_BASE : String := "https://dev-v5dtht4xch6aermg.us.auth0.com"

/-- Embedding of `make_nws_request` (lines 77-89): the whole chain inside
`try: ... except Exception: return None`, so any exception becomes `none`.
Second component: the requests performed. -/
def make_nws_request (env : Env) (url : String) : Option Json × List Request :=
  ((http_get_chain env (Request.nwsGet url)).toOption, [Request.nwsGet url])

/-- Embedding of `make_userinfo_request` (lines 91-105): same shape against the fixed
userinfo endpoint, forwarding the caller's `authorization` value; the
except-branch logs and returns `None`. -/
def make_userinfo_request (env : Env) (authtoken : String) : Option Json × List Request :=
  ((http_get_chain env (Request.userinfoGet authtoken)).toOption,
   [Request.userinfoGet authtoken])

/-- Embedding of `make_nws_request(forecast_url)` where `forecast_url` is whatever JSON
value `properties.forecast` held: for a non-string, httpx URL construction
raises inside the `try` before any request is sent, so the call yields
`None` with no outbound request. -/
def make_nws_request_j (env : Env) (url : Json) : Option Json × List Request :=
  match url with
  | Json.str s => make_nws_request env s
  | _ => (none, [])

/-- The alerts URL `f"{NWS_API_BASE}/alerts/active/area/{state}"`. -/
def alerts_url (state : String) : String :=
  NWS_API_BASE ++ "/alerts/active/area/" ++ state

/-- The points URL `f"{NWS_API_BASE}/points/{latitude},{longitude}"`
(coordinates taken already rendered to decimal strings). -/
def points_url (latitude longitude : String) : String :=
  NWS_API_BASE ++ "/points/" ++ latitude ++ "," ++ longitude

/-- The list comprehension `[format_alert(f) for f in features]`: evaluated
left to right, the first exception propagates. -/
def formatAlerts : List Json → Except PyErr (List String)
  | [] => Except.ok []
  | f :: fs =>
    match format_alert f with
    | Except.error e => Except.error e
    | Except.ok s =>
      match formatAlerts fs with
      | Except.error e => Except.error e
      | Except.ok ss => Except.ok (s :: ss)

/-- Embedding of `get_alerts` (lines 118-145).  Reads the `authorization` header
(KeyError when absent), resolves userinfo, evaluates `userinfo["name"]`
in the log line (TypeError on `None`, KeyError when the key is missing),
fetches the alerts, then branches on truthiness / membership exactly as
the source does, joining blocks with `"\n---\nHi " + str(name)`. -/
def get_alerts (env : Env) (headers : List (String × String)) (state : String) :
    Except PyErr String × List Request :=
  match lookupStr headers "authorization" with
  | none => (Except.error (PyErr.keyError "authorization"), [])
  | some authtoken =>
    let uio := (make_userinfo_request env authtoken).1
    let t1 := (make_userinfo_request env authtoken).2
    match pySubscript (optToPy uio) "name" with
    | Except.error e => (Except.error e, t1)
    | Except.ok nameVal =>
      let data := (make_nws_request env (alerts_url state)).1
      let trace := t1 ++ (make_nws_request env (alerts_url state)).2
      if !pyTruthy (optToPy data) then
        (Except.ok "Unable to fetch alerts or no alerts found.", trace)
      else
        match pyContainsStr (optToPy data) "features" with
        | Except.error e => (Except.error e, trace)
        | Except.ok isIn =>
          if !isIn then
            (Except.ok "Unable to fetch alerts or no alerts found.", trace)
          else
            match pySubscript (optToPy data) "features" with
            | Except.error e => (Except.error e, trace)
            | Except.ok feats =>
              if !pyTruthy feats then
                (Except.ok "No active alerts for this state.", trace)
              else
                match pyIter feats with
                | Except.error e => (Except.error e, trace)
                | Except.ok items =>
                  match formatAlerts items with
                  | Except.error e => (Except.error e, trace)
                  | Except.ok alerts =>
                    (Except.ok (String.intercalate
                        ("\n---\nHi " ++ pyStr nameVal) alerts), trace)

/-- The f-string block for one forecast period (lines 173-178); every
field subscript can raise.  The literal between the temperature value and
its unit is the two characters U+00C2 U+00B0 as in the source bytes. -/
def formatPeriod (p : Json) : Except PyErr String :=
  match pySubscript p "name" with
  | Except.error e => Except.error e
  | Except.ok nm =>
    match pySubscript p "temperature" with
    | Except.error e => Except.error e
    | Except.ok tmp =>
      match pySubscript p "temperatureUnit" with
      | Except.error e => Except.error e
      | Except.ok tu =>
        match pySubscript p "windSpeed" with
        | Except.error e => Except.error e
        | Except.ok ws =>
          match pySubscript p "windDirection" with
          | Except.error e => Except.error e
          | Except.ok wd =>
            match pySubscript p "detailedForecast" with
            | Except.error e => Except.error e
            | Except.ok df =>
              Except.ok ("\n" ++ pyStr nm ++ ":\nTemperature: " ++ pyStr tmp ++
                "Â°" ++ pyStr tu ++
                "\nWind: " ++ pyStr ws ++ " " ++ pyStr wd ++
                "\nForecast: " ++ pyStr df ++ "\n")

/-- The accumulation loop `for period in periods[:5]: ... append(...)`. -/
def formatPeriods : List Json → Except PyErr (List String)
  | [] => Except.ok []
  | p :: ps =>
    match formatPeriod p with
    | Except.error e => Except.error e
    | Except.ok s =>
      match formatPeriods ps with
      | Except.error e => Except.error e
      | Except.ok ss => Except.ok (s :: ss)

/-- Embedding of `get_forecast` (lines 147-181): points fetch, truthiness guard,
`properties.forecast` extraction (unguarded), second fetch, truthiness
guard, `properties.periods` extraction, slice to five, format, join. -/
def get_forecast (env : Env) (latitude longitude : String) :
    Except PyErr String × List Request :=
  let pUrl := points_url latitude longitude
  let points_data := (make_nws_request env pUrl).1
  let t1 := (make_nws_request env pUrl).2
  if !pyTruthy (optToPy points_data) then
    (Except.ok "Unable to fetch forecast data for this location.", t1)
  else
    match pySubscript (optToPy points_data) "properties" with
    | Except.error e => (Except.error e, t1)
    | Except.ok props =>
      match pySubscript props "forecast" with
      | Except.error e => (Except.error e, t1)
      | Except.ok forecast_url =>
        let forecast_data := (make_nws_request_j env forecast_url).1
        let trace := t1 ++ (make_nws_request_j env forecast_url).2
        if !pyTruthy (optToPy forecast_data) then
          (Except.ok "Unable to fetch detailed forecast.", trace)
        else
          match pySubscript (optToPy forecast_data) "properties" with
          | Except.error e => (Except.error e, trace)
          | Except.ok fprops =>
            match pySubscript fprops "periods" with
            | Except.error e => (Except.error e, trace)
            | Except.ok periods =>
              match pySlice5 periods with
              | Except.error e => (Except.error e, trace)
              | Except.ok first5 =>
                match pyIter first5 with
                | Except.error e => (Except.error e, trace)
                | Except.ok items =>
                  match formatPeriods items with
                  | Except.error e => (Except.error e, trace)
                  | Except.ok forecasts =>
                    (Except.ok (String.intercalate "\n---\n" forecasts), trace)

def oauth_metadata_url : String :=
  AUTH0_BASE ++ "/.well-known/oauth-authorization-server"

def openid_metadata_url : String :=
  AUTH0_BASE ++ "/.well-known/openid-configuration"

/-- Route handler for `/.well-known/oauth-authorization-server`
(lines 41-47): a fresh GET of the provider's endpoint per invocation,
`raise_for_status`, then `JSONResponse(response.json())`; no handler for
any exception, so failures propagate. -/
def authorization_server_metadata (env : Env) : Except PyErr Json × List Request :=
  (http_get_chain env (Request.metaGet oauth_metadata_url),
   [Request.metaGet oauth_metadata_url])

/-- Route handler for `/.well-known/openid-configuration` (lines 50-56). -/
def openid_configuration_metadata (env : Env) : Except PyErr Json × List Request :=
  (http_get_chain env (Request.metaGet openid_metadata_url),
   [Request.metaGet openid_metadata_url])

/-- Does this result carry a propagated (unhandled) Python exception? -/
def isFault : Except PyErr String → Bool
  | Except.error _ => true
  | Except.ok _ => false

/-- Same test on JSON-valued results (the metadata routes). -/
def isFaultJ : Except PyErr Json → Bool
  | Except.error _ => true
  | Except.ok _ => false

/-- What the formatter prints for one property: the field's value when the
key is present, the documented default otherwise. -/
def strField (kvs : List (String × Json)) (key default : String) : String :=
  match lookupKv kvs key with
  | some v => pyStr v
  | none => default

/-- A `features` value is well shaped when absent or a list of features
the formatter accepts. -/
def featuresShapeOK : Option Json → Bool
  | none => true
  | some (Json.arr fs) => fs.all (fun f => !isFault (format_alert f))
  | some _ => false

/-- An alerts body is well shaped when absent or a JSON object with a
well-shaped `features` value. -/
def bodyShapeOK : Option Json → Bool
  | none => true
  | some (Json.obj kvs) => featuresShapeOK (lookupKv kvs "features")
  | some _ => false

/-- The alerts response is absent or shaped as the NWS API shapes it.
Inside this envelope `get_alerts` has no fault path left except the
credential and userinfo ones. -/
def alertsShapeOK (env : Env) (state : String) : Bool :=
  bodyShapeOK (make_nws_request env (alerts_url state)).1

/-- A test network answering from a fixed table, transport-failing on every
other request. -/
def envOf (rs : List (Request × HttpResponse)) : Env := fun req =>
  match rs.find? (fun p => p.1 == req) with
  | some p => Except.ok p.2
  | none => Except.error TransportErr.timeout

/-- A 200 response with the given JSON body. -/
def okResp (j : Json) : HttpResponse := ⟨200, some j⟩

def userinfoAlex : Json := Json.obj [("name", Json.str "Alex")]

def alertA : Json := Json.obj [("properties", Json.obj
  [("event", Json.str "Flood Warning"), ("areaDesc", Json.str "Wake County"),
   ("severity", Json.str "Severe"), ("description", Json.str "Heavy rain expected"),
   ("instruction", Json.str "Move to higher ground")])]

def alertB : Json := Json.obj [("properties", Json.obj
  [("event", Json.str "Heat Advisory"), ("areaDesc", Json.str "Durham County"),
   ("severity", Json.str "Moderate"), ("description", Json.str "High temperatures"),
   ("instruction", Json.str "Stay hydrated")])]

def alertC : Json := Json.obj [("properties", Json.obj
  [("event", Json.str "Wind Advisory"), ("areaDesc", Json.str "Orange County"),
   ("severity", Json.str "Minor"), ("description", Json.str "Gusty winds"),
   ("instruction", Json.str "Secure loose objects")])]

/-- A feature whose `properties` dict is empty: every field defaults. -/
def alertBare : Json := Json.obj [("properties", Json.obj [])]

def alertsBody (fs : List Json) : Json := Json.obj [("features", Json.arr fs)]

def envAlerts3 : Env := envOf
  [(Request.userinfoGet "tok", okResp userinfoAlex),
   (Request.nwsGet (alerts_url "NC"), okResp (alertsBody [alertA, alertB, alertC]))]

/-- Userinfo resolves; the alerts fetch transport-fails. -/
def envAlertsDown : Env := envOf [(Request.userinfoGet "tok", okResp userinfoAlex)]

/-- Userinfo resolves; the alerts response has an empty `features` list. -/
def envAlertsEmpty : Env := envOf
  [(Request.userinfoGet "tok", okResp userinfoAlex),
   (Request.nwsGet (alerts_url "NC"), okResp (alertsBody []))]

/-- Userinfo resolves; the alerts response is an object without `features`. -/
def envAlertsNoFeatures : Env := envOf
  [(Request.userinfoGet "tok", okResp userinfoAlex),
   (Request.nwsGet (alerts_url "NC"), okResp (Json.obj [("title", Json.str "watches")]))]

/-- Every request transport-fails (in particular the userinfo fetch). -/
def envAllDown : Env := envOf []

/-- The resolved name is the string `"Unknown"`, and the single alert's
empty properties make that very string part of the formatted block. -/
def envNameUnknown : Env := envOf
  [(Request.userinfoGet "tok", okResp (Json.obj [("name", Json.str "Unknown")])),
   (Request.nwsGet (alerts_url "NC"), okResp (alertsBody [alertBare]))]

def forecastURL : String := "https://api.weather.gov/gridpoints/RAH/73,57/forecast"

def pointsBody : Json :=
  Json.obj [("properties", Json.obj [("forecast", Json.str forecastURL)])]

def onePeriod (i : Nat) : Json := Json.obj
  [("name", Json.str ("Period" ++ toString i)),
   ("temperature", Json.num (Int.ofNat (60 + i))),
   ("temperatureUnit", Json.str "F"),
   ("windSpeed", Json.str "5 mph"),
   ("windDirection", Json.str "NW"),
   ("detailedForecast", Json.str "Sunny")]

def periodsN (n : Nat) : List Json := (List.range n).map onePeriod

def forecastBody (n : Nat) : Json :=
  Json.obj [("properties", Json.obj [("periods", Json.arr (periodsN n))])]

def envForecast7 : Env := envOf
  [(Request.nwsGet (points_url "35.78" "-78.64"), okResp pointsBody),
   (Request.nwsGet forecastURL, okResp (forecastBody 7))]

/-- The points fetch succeeds, the forecast-document fetch transport-fails. -/
def envForecastStage2Down : Env := envOf
  [(Request.nwsGet (points_url "35.78" "-78.64"), okResp pointsBody)]

/-- The points response is an empty JSON object: truthy check fails before
the `properties.forecast` lookup is reached. -/
def envPointsEmptyObj : Env := envOf
  [(Request.nwsGet (points_url "35.78" "-78.64"), okResp (Json.obj []))]

/-- The points response is truthy but has no `forecast` under `properties`. -/
def envPointsNoForecastKey : Env := envOf
  [(Request.nwsGet (points_url "35.78" "-78.64"),
    okResp (Json.obj [("properties", Json.obj [("gridId", Json.str "RAH")])]))]

def metadataDoc : Json := Json.obj
  [("issuer", Json.str AUTH0_BASE), ("jwks_uri", Json.str (AUTH0_BASE ++ "/.well-known/jwks.json"))]

def envMetaUp : Env := envOf
  [(Request.metaGet oauth_metadata_url, okResp metadataDoc),
   (Request.metaGet openid_metadata_url, okResp metadataDoc)]

/-- The identity provider answers the well-known endpoints with 503. -/
def envMeta503 : Env := envOf
  [(Request.metaGet oauth_metadata_url, ⟨503, some metadataDoc⟩),
   (Request.metaGet openid_metadata_url, ⟨503, some metadataDoc⟩)]

def envForecast3 : Env := envOf
  [(Request.nwsGet (points_url "35.78" "-78.64"), okResp pointsBody),
   (Request.nwsGet forecastURL, okResp (forecastBody 3))]

def envAlerts1 : Env := envOf
  [(Request.userinfoGet "tok", okResp userinfoAlex),
   (Request.nwsGet (alerts_url "NC"), okResp (alertsBody [alertA]))]

/-- The alerts endpoint answers 503. -/
def envNws503 : Env := envOf [(Request.nwsGet (alerts_url "NC"), ⟨503, some (Json.obj [])⟩)]

/-- The alerts endpoint answers 200 with an unparseable body. -/
def envNwsBadBody : Env := envOf [(Request.nwsGet (alerts_url "NC"), ⟨200, none⟩)]

/-! ## Helper lemmas -/

theorem lookupKv_isEmpty_false {kvs : List (String × Json)} {k : String} {v : Json}
    (h : lookupKv kvs k = some v) : kvs.isEmpty = false := by
  cases kvs with
  | nil => simp [lookupKv] at h
  | cons a l => rfl

theorem lookupKv_any_true {kvs : List (String × Json)} {k : String} {v : Json}
    (h : lookupKv kvs k = some v) : (kvs.any fun kv => kv.1 == k) = true := by
  induction kvs with
  | nil => simp [lookupKv] at h
  | cons a l ih =>
    rw [lookupKv] at h
    by_cases hk : a.1 == k
    · simp [List.any, hk]
    · simp only [List.any_cons, hk, Bool.false_or]
      exact ih (by simpa [hk] using h)

theorem lookupKv_any_false {kvs : List (String × Json)} {k : String}
    (h : lookupKv kvs k = none) : (kvs.any fun kv => kv.1 == k) = false := by
  induction kvs with
  | nil => rfl
  | cons a l ih =>
    rw [lookupKv] at h
    by_cases hk : a.1 == k
    · simp [hk] at h
    · simp only [List.any_cons, hk, Bool.false_or]
      exact ih (by simpa [hk] using h)

theorem strField_eq (kvs : List (String × Json)) (k d : String) :
    pyStr ((lookupKv kvs k).getD (Json.str d)) = strField kvs k d := by
  cases h : lookupKv kvs k <;> simp [strField, h, pyStr]

/-- The full evaluation of `format_alert` on a feature carrying a
`properties` object: each field prints its value when present and the
documented default otherwise. -/
theorem format_alert_obj_eq (fkvs pkvs : List (String × Json))
    (h : lookupKv fkvs "properties" = some (Json.obj pkvs)) :
    format_alert (Json.obj fkvs) =
      Except.ok ("\nEvent: " ++ strField pkvs "event" "Unknown" ++
        "\nArea: " ++ strField pkvs "areaDesc" "Unknown" ++
        "\nSeverity: " ++ strField pkvs "severity" "Unknown" ++
        "\nDescription: " ++ strField pkvs "description" "No description available" ++
        "\nInstructions: " ++ strField pkvs "instruction" "No specific instructions provided" ++
        "\n") := by
  simp [format_alert, pySubscript, h, dictGet, strField_eq]

/-- Happy-path evaluation of `get_alerts`: credentials and userinfo resolve,
the alerts body is an object with a non-empty `features` list, every feature
formats; the result is the blocks joined by the greeting separator, after
one userinfo request and one NWS request. -/
theorem get_alerts_join_eq (env : Env) (headers : List (String × String))
    (state tok : String) (nmVal : Json) (kvs : List (String × Json))
    (fs : List Json) (blocks : List String)
    (hauth : lookupStr headers "authorization" = some tok)
    (hname : pySubscript (optToPy (make_userinfo_request env tok).1) "name" = Except.ok nmVal)
    (hdata : (make_nws_request env (alerts_url state)).1 = some (Json.obj kvs))
    (hfeat : lookupKv kvs "features" = some (Json.arr fs))
    (hne : fs.isEmpty = false)
    (hfmt : formatAlerts fs = Except.ok blocks) :
    get_alerts env headers state =
      (Except.ok (String.intercalate ("\n---\nHi " ++ pyStr nmVal) blocks),
       [Request.userinfoGet tok, Request.nwsGet (alerts_url state)]) := by
  have hkv : kvs.isEmpty = false := lookupKv_isEmpty_false hfeat
  have hany : (kvs.any fun kv => kv.1 == "features") = true := lookupKv_any_true hfeat
  have h2 : (make_userinfo_request env tok).2 = [Request.userinfoGet tok] := rfl
  have h3 : (make_nws_request env (alerts_url state)).2 = [Request.nwsGet (alerts_url state)] := rfl
  simp only [get_alerts, hauth]
  rw [hname, hdata]
  simp only [optToPy, pyTruthy, hkv, pyContainsStr, hany, pySubscript, hfeat, hne,
    pyIter, hfmt, h2, h3]
  simp

/-- Happy-path evaluation of `get_forecast`: both fetches succeed with the
expected shapes; the result is the first five periods formatted and joined,
after exactly the points request then the forecast request. -/
theorem get_forecast_join_eq (env : Env) (latitude longitude furl : String)
    (pkvs prkvs fkvs fpkvs : List (String × Json)) (ps : List Json) (blocks : List String)
    (hp : (make_nws_request env (points_url latitude longitude)).1 = some (Json.obj pkvs))
    (hprops : lookupKv pkvs "properties" = some (Json.obj prkvs))
    (hfurl : lookupKv prkvs "forecast" = some (Json.str furl))
    (hf : (make_nws_request env furl).1 = some (Json.obj fkvs))
    (hfprops : lookupKv fkvs "properties" = some (Json.obj fpkvs))
    (hper : lookupKv fpkvs "periods" = some (Json.arr ps))
    (hfmt : formatPeriods (ps.take 5) = Except.ok blocks) :
    get_forecast env latitude longitude =
      (Except.ok (String.intercalate "\n---\n" blocks),
       [Request.nwsGet (points_url latitude longitude), Request.nwsGet furl]) := by
  have hkv : pkvs.isEmpty = false := lookupKv_isEmpty_false hprops
  have hkv2 : fkvs.isEmpty = false := lookupKv_isEmpty_false hfprops
  have h1 : (make_nws_request env (points_url latitude longitude)).2 =
      [Request.nwsGet (points_url latitude longitude)] := rfl
  have h2 : (make_nws_request env furl).2 = [Request.nwsGet furl] := rfl
  simp only [get_forecast]
  rw [hp]
  simp only [optToPy, pyTruthy, hkv, pySubscript, hprops, hfurl, make_nws_request_j]
  rw [hf]
  simp only [optToPy, pyTruthy, hkv2, pySubscript, hfprops, hper, pySlice5, pyIter,
    hfmt, h1, h2]
  simp

/-! ## Claims -/

/-- Claim C1: for every alert feature whose `properties` record misses any
subset of `event`, `areaDesc`, `severity`, `description`, `instruction`,
`format_alert` substitutes exactly "Unknown", "Unknown", "Unknown",
"No description available", "No specific instructions provided" for the
missing fields, and its output always carries all five labeled lines. -/
theorem claim1_format_alert_default_fields (fkvs pkvs : List (String × Json))
    (h : lookupKv fkvs "properties" = some (Json.obj pkvs)) :
    format_alert (Json.obj fkvs) =
      Except.ok ("\nEvent: " ++ strField pkvs "event" "Unknown" ++
        "\nArea: " ++ strField pkvs "areaDesc" "Unknown" ++
        "\nSeverity: " ++ strField pkvs "severity" "Unknown" ++
        "\nDescription: " ++ strField pkvs "description" "No description available" ++
        "\nInstructions: " ++ strField pkvs "instruction" "No specific instructions provided" ++
        "\n")
    ∧ (∀ key d, lookupKv pkvs key = none → strField pkvs key d = d) :=
  ⟨format_alert_obj_eq fkvs pkvs h, fun key d hk => by simp [strField, hk]⟩

/-- Witness for C1 at a feature whose `properties` is empty: all five
defaults appear on their labeled lines. -/
theorem claim1_witness :
    format_alert (Json.obj [("properties", Json.obj [])]) =
      Except.ok ("\nEvent: Unknown\nArea: Unknown\nSeverity: Unknown" ++
        "\nDescription: No description available" ++
        "\nInstructions: No specific instructions provided\n") := by
  rw [(claim1_format_alert_default_fields [("properties", Json.obj [])] [] rfl).1]
  rfl

/-- Claim C2: when the authorization and userinfo steps succeed, an absent
alerts fetch or a response object without a `features` key yields exactly
"Unable to fetch alerts or no alerts found.", and a `features` key holding
an empty list yields exactly "No active alerts for this state.". -/
theorem claim2_get_alerts_absence_messages (env : Env)
    (headers : List (String × String)) (state tok : String) (nmVal : Json)
    (hauth : lookupStr headers "authorization" = some tok)
    (hname : pySubscript (optToPy (make_userinfo_request env tok).1) "name" = Except.ok nmVal) :
    (((make_nws_request env (alerts_url state)).1 = none ∨
      (∃ kvs, (make_nws_request env (alerts_url state)).1 = some (Json.obj kvs) ∧
        lookupKv kvs "features" = none)) →
      (get_alerts env headers state).1 = Except.ok "Unable to fetch alerts or no alerts found.")
    ∧ (∀ kvs, (make_nws_request env (alerts_url state)).1 = some (Json.obj kvs) →
        lookupKv kvs "features" = some (Json.arr []) →
        (get_alerts env headers state).1 = Except.ok "No active alerts for this state.") := by
  constructor
  · rintro (hnone | ⟨kvs, hdata, hfeat⟩)
    · simp only [get_alerts, hauth]
      rw [hname, hnone]
      simp [optToPy, pyTruthy]
    · rcases kvs with _ | ⟨a, l⟩
      · simp only [get_alerts, hauth]
        rw [hname, hdata]
        simp [optToPy, pyTruthy]
      · have hany := lookupKv_any_false hfeat
        simp only [get_alerts, hauth]
        rw [hname, hdata]
        simp [optToPy, pyTruthy, pyContainsStr, hany]
  · intro kvs hdata hfeat
    have hkv := lookupKv_isEmpty_false hfeat
    have hany := lookupKv_any_true hfeat
    simp only [get_alerts, hauth]
    rw [hname, hdata]
    simp [optToPy, pyTruthy, hkv, pyContainsStr, hany, pySubscript, hfeat]

/-- Witness for C2: with resolving credentials, a transport-failed alerts
fetch gives the fetch-failure sentence; an empty `features` list gives the
no-alerts sentence; an object without `features` gives the fetch-failure
sentence. -/
theorem claim2_witness :
    (get_alerts envAlertsDown [("authorization", "tok")] "NC").1 =
      Except.ok "Unable to fetch alerts or no alerts found."
    ∧ (get_alerts envAlertsEmpty [("authorization", "tok")] "NC").1 =
      Except.ok "No active alerts for this state."
    ∧ (get_alerts envAlertsNoFeatures [("authorization", "tok")] "NC").1 =
      Except.ok "Unable to fetch alerts or no alerts found." :=
  ⟨(claim2_get_alerts_absence_messages envAlertsDown [("authorization", "tok")] "NC" "tok" (Json.str "Alex")
      rfl rfl).1 (Or.inl rfl),
   (claim2_get_alerts_absence_messages envAlertsEmpty [("authorization", "tok")] "NC" "tok" (Json.str "Alex")
      rfl rfl).2 [("features", Json.arr [])] rfl rfl,
   (claim2_get_alerts_absence_messages envAlertsNoFeatures [("authorization", "tok")] "NC" "tok" (Json.str "Alex")
      rfl rfl).1 (Or.inr ⟨[("title", Json.str "watches")], rfl, rfl⟩)⟩

/-- Claim C3: `get_forecast` emits exactly the first five periods, in their
original order (the blocks formatted from `ps.take 5`), and when the
sequence has at most five periods it emits all of them. -/
theorem claim3_get_forecast_first_five (env : Env) (latitude longitude furl : String)
    (pkvs prkvs fkvs fpkvs : List (String × Json)) (ps : List Json) (blocks : List String)
    (hp : (make_nws_request env (points_url latitude longitude)).1 = some (Json.obj pkvs))
    (hprops : lookupKv pkvs "properties" = some (Json.obj prkvs))
    (hfurl : lookupKv prkvs "forecast" = some (Json.str furl))
    (hf : (make_nws_request env furl).1 = some (Json.obj fkvs))
    (hfprops : lookupKv fkvs "properties" = some (Json.obj fpkvs))
    (hper : lookupKv fpkvs "periods" = some (Json.arr ps))
    (hfmt : formatPeriods (ps.take 5) = Except.ok blocks) :
    (get_forecast env latitude longitude).1 =
      Except.ok (String.intercalate "\n---\n" blocks)
    ∧ (ps.length ≤ 5 → formatPeriods ps = Except.ok blocks) := by
  constructor
  · rw [get_forecast_join_eq env latitude longitude furl pkvs prkvs fkvs fpkvs ps blocks
      hp hprops hfurl hf hfprops hper hfmt]
  · intro hlen
    rwa [List.take_of_length_le hlen] at hfmt

/-- Witness for C3 at a seven-period forecast: exactly periods 0-4 appear. -/
theorem claim3_witness :
    (get_forecast envForecast7 "35.78" "-78.64").1 =
      Except.ok (String.intercalate "\n---\n"
        ["\nPeriod0:\nTemperature: 60Â°F\nWind: 5 mph NW\nForecast: Sunny\n",
         "\nPeriod1:\nTemperature: 61Â°F\nWind: 5 mph NW\nForecast: Sunny\n",
         "\nPeriod2:\nTemperature: 62Â°F\nWind: 5 mph NW\nForecast: Sunny\n",
         "\nPeriod3:\nTemperature: 63Â°F\nWind: 5 mph NW\nForecast: Sunny\n",
         "\nPeriod4:\nTemperature: 64Â°F\nWind: 5 mph NW\nForecast: Sunny\n"]) :=
  (claim3_get_forecast_first_five envForecast7 "35.78" "-78.64" forecastURL
    [("properties", Json.obj [("forecast", Json.str forecastURL)])]
    [("forecast", Json.str forecastURL)]
    [("properties", Json.obj [("periods", Json.arr (periodsN 7))])]
    [("periods", Json.arr (periodsN 7))] (periodsN 7) _
    rfl rfl rfl rfl rfl rfl rfl).1

/-- Claim C4: the joined outputs use exact separators and only between
items: `get_forecast` joins period blocks with "\n---\n" and `get_alerts`
joins alert blocks with "\n---\nHi " followed by the resolved userinfo
name, with no leading or trailing separator (`String.intercalate`). -/
theorem claim4_join_separators_exact (env : Env) (headers : List (String × String))
    (state tok nm : String) (kvs : List (String × Json)) (fs : List Json)
    (blocks : List String)
    (hauth : lookupStr headers "authorization" = some tok)
    (hname : pySubscript (optToPy (make_userinfo_request env tok).1) "name" =
      Except.ok (Json.str nm))
    (hdata : (make_nws_request env (alerts_url state)).1 = some (Json.obj kvs))
    (hfeat : lookupKv kvs "features" = some (Json.arr fs))
    (hne : fs.isEmpty = false)
    (hfmt : formatAlerts fs = Except.ok blocks)
    (env2 : Env) (latitude longitude furl : String)
    (pkvs prkvs fkvs fpkvs : List (String × Json)) (ps : List Json)
    (blocks2 : List String)
    (hp : (make_nws_request env2 (points_url latitude longitude)).1 = some (Json.obj pkvs))
    (hprops : lookupKv pkvs "properties" = some (Json.obj prkvs))
    (hfurl : lookupKv prkvs "forecast" = some (Json.str furl))
    (hf : (make_nws_request env2 furl).1 = some (Json.obj fkvs))
    (hfprops : lookupKv fkvs "properties" = some (Json.obj fpkvs))
    (hper : lookupKv fpkvs "periods" = some (Json.arr ps))
    (hfmt2 : formatPeriods (ps.take 5) = Except.ok blocks2) :
    (get_alerts env headers state).1 =
      Except.ok (String.intercalate ("\n---\nHi " ++ nm) blocks)
    ∧ (get_forecast env2 latitude longitude).1 =
      Except.ok (String.intercalate "\n---\n" blocks2) := by
  constructor
  · rw [get_alerts_join_eq env headers state tok (Json.str nm) kvs fs blocks
      hauth hname hdata hfeat hne hfmt]
    rfl
  · rw [get_forecast_join_eq env2 latitude longitude furl pkvs prkvs fkvs fpkvs ps blocks2
      hp hprops hfurl hf hfprops hper hfmt2]

/-- Witness for C4: three full alert features with userinfo name "Alex"
give the three blocks with "\n---\nHi Alex" between each pair and no
leading or trailing separator; three periods joined with "\n---\n". -/
theorem claim4_witness :
    (get_alerts envAlerts3 [("authorization", "tok")] "NC").1 =
      Except.ok
        ("\nEvent: Flood Warning\nArea: Wake County\nSeverity: Severe\nDescription: Heavy rain expected\nInstructions: Move to higher ground\n"
          ++ "\n---\nHi Alex" ++
         "\nEvent: Heat Advisory\nArea: Durham County\nSeverity: Moderate\nDescription: High temperatures\nInstructions: Stay hydrated\n"
          ++ "\n---\nHi Alex" ++
         "\nEvent: Wind Advisory\nArea: Orange County\nSeverity: Minor\nDescription: Gusty winds\nInstructions: Secure loose objects\n")
    ∧ (get_forecast envForecast3 "35.78" "-78.64").1 =
      Except.ok
        ("\nPeriod0:\nTemperature: 60Â°F\nWind: 5 mph NW\nForecast: Sunny\n"
          ++ "\n---\n" ++
         "\nPeriod1:\nTemperature: 61Â°F\nWind: 5 mph NW\nForecast: Sunny\n"
          ++ "\n---\n" ++
         "\nPeriod2:\nTemperature: 62Â°F\nWind: 5 mph NW\nForecast: Sunny\n") := by
  have h := claim4_join_separators_exact envAlerts3 [("authorization", "tok")] "NC" "tok"
    "Alex" [("features", Json.arr [alertA, alertB, alertC])] [alertA, alertB, alertC] _
    rfl rfl rfl rfl rfl rfl
    envForecast3 "35.78" "-78.64" forecastURL
    [("properties", Json.obj [("forecast", Json.str forecastURL)])]
    [("forecast", Json.str forecastURL)]
    [("properties", Json.obj [("periods", Json.arr (periodsN 3))])]
    [("periods", Json.arr (periodsN 3))] (periodsN 3) _
    rfl rfl rfl rfl rfl rfl rfl
  exact ⟨h.1.trans (by rfl), h.2.trans (by rfl)⟩

/-- Counterexample to C10: with a single alert, the output is the single
block — but the claim also asserts the resolved name appears nowhere in
the output, and here the resolved name is the string "Unknown", which the
block's default fields contain: the output is literally
`pre ++ "Unknown" ++ post`. -/
theorem claim10_counterexample :
    pySubscript (optToPy (make_userinfo_request envNameUnknown "tok").1) "name" =
      Except.ok (Json.str "Unknown")
    ∧ (get_alerts envNameUnknown [("authorization", "tok")] "NC").1 =
      Except.ok ("\nEvent: " ++ "Unknown" ++
        "\nArea: Unknown\nSeverity: Unknown\nDescription: No description available\nInstructions: No specific instructions provided\n") :=
  ⟨rfl, rfl⟩

/-- Claim C10 (amended): with exactly one alert feature the returned string
is exactly the single formatted block — the greeting-bearing separator is
emitted only between two or more alerts, so the resolved name enters the
output only if it already occurs in the block's own text. -/
theorem claim10_amended_single_alert (env : Env) (headers : List (String × String))
    (state tok : String) (nmVal : Json) (kvs : List (String × Json))
    (f : Json) (b : String)
    (hauth : lookupStr headers "authorization" = some tok)
    (hname : pySubscript (optToPy (make_userinfo_request env tok).1) "name" = Except.ok nmVal)
    (hdata : (make_nws_request env (alerts_url state)).1 = some (Json.obj kvs))
    (hfeat : lookupKv kvs "features" = some (Json.arr [f]))
    (hfmt : format_alert f = Except.ok b) :
    (get_alerts env headers state).1 = Except.ok b := by
  rw [get_alerts_join_eq env headers state tok nmVal kvs [f] [b]
    hauth hname hdata hfeat rfl (by simp [formatAlerts, hfmt])]
  rfl

/-- Witness for the amended C10: one alert, name "Alex": the output is the
bare block, no "Hi Alex" anywhere. -/
theorem claim10_witness :
    (get_alerts envAlerts1 [("authorization", "tok")] "NC").1 =
      Except.ok "\nEvent: Flood Warning\nArea: Wake County\nSeverity: Severe\nDescription: Heavy rain expected\nInstructions: Move to higher ground\n" :=
  claim10_amended_single_alert envAlerts1 [("authorization", "tok")] "NC" "tok"
    (Json.str "Alex") [("features", Json.arr [alertA])] alertA _
    rfl rfl rfl rfl rfl

/-- Behaviour of the shared GET-verify-parse chain under each outcome of
the transport. -/
theorem http_chain_spec (env : Env) (req : Request) :
    (∀ e, env req = Except.error e → (http_get_chain env req).toOption = none)
    ∧ (∀ r, env req = Except.ok r → ¬(200 ≤ r.status ∧ r.status < 300) →
        (http_get_chain env req).toOption = none)
    ∧ (∀ r, env req = Except.ok r → r.jsonBody = none →
        (http_get_chain env req).toOption = none)
    ∧ (∀ r j, env req = Except.ok r → 200 ≤ r.status → r.status < 300 →
        r.jsonBody = some j → (http_get_chain env req).toOption = some j) := by
  refine ⟨?_, ?_, ?_, ?_⟩
  · intro e h
    simp [http_get_chain, h, Except.toOption]
  · intro r h hs
    rw [http_get_chain, h]
    simp only [if_neg hs]
    rfl
  · intro r h hb
    by_cases hs : 200 ≤ r.status ∧ r.status < 300
    · rw [http_get_chain, h]
      simp only [if_pos hs, hb]
      rfl
    · rw [http_get_chain, h]
      simp only [if_neg hs]
      rfl
  · intro r j h h1 h2 hb
    rw [http_get_chain, h]
    simp only [if_pos (And.intro h1 h2), hb]
    rfl

/-- Claim C5: `make_nws_request` and `make_userinfo_request` are total
toward their callers: every transport error, non-2xx status or unparseable
body yields `none` (no exception escapes), and a 2xx response with a
parseable body yields exactly the parsed JSON body — no third outcome. -/
theorem claim5_fetchers_total (env : Env) (url authtoken : String) :
    ((∀ e, env (Request.nwsGet url) = Except.error e →
        (make_nws_request env url).1 = none)
     ∧ (∀ r, env (Request.nwsGet url) = Except.ok r →
        ¬(200 ≤ r.status ∧ r.status < 300) → (make_nws_request env url).1 = none)
     ∧ (∀ r, env (Request.nwsGet url) = Except.ok r → r.jsonBody = none →
        (make_nws_request env url).1 = none)
     ∧ (∀ r j, env (Request.nwsGet url) = Except.ok r → 200 ≤ r.status →
        r.status < 300 → r.jsonBody = some j → (make_nws_request env url).1 = some j))
    ∧ ((∀ e, env (Request.userinfoGet authtoken) = Except.error e →
        (make_userinfo_request env authtoken).1 = none)
     ∧ (∀ r, env (Request.userinfoGet authtoken) = Except.ok r →
        ¬(200 ≤ r.status ∧ r.status < 300) → (make_userinfo_request env authtoken).1 = none)
     ∧ (∀ r, env (Request.userinfoGet authtoken) = Except.ok r → r.jsonBody = none →
        (make_userinfo_request env authtoken).1 = none)
     ∧ (∀ r j, env (Request.userinfoGet authtoken) = Except.ok r → 200 ≤ r.status →
        r.status < 300 → r.jsonBody = some j →
        (make_userinfo_request env authtoken).1 = some j)) :=
  ⟨http_chain_spec env (Request.nwsGet url),
   http_chain_spec env (Request.userinfoGet authtoken)⟩

/-- Witness for C5: a 200 response with a JSON body comes back parsed; a
transport failure, a 503, and an unparseable 200 body all come back as
`none`. -/
theorem claim5_witness :
    (make_nws_request envAlerts3 (alerts_url "NC")).1 =
      some (alertsBody [alertA, alertB, alertC])
    ∧ (make_userinfo_request envAllDown "tok").1 = none
    ∧ (make_nws_request envNws503 (alerts_url "NC")).1 = none
    ∧ (make_nws_request envNwsBadBody (alerts_url "NC")).1 = none :=
  ⟨(claim5_fetchers_total envAlerts3 (alerts_url "NC") "tok").1.2.2.2
      (okResp (alertsBody [alertA, alertB, alertC])) (alertsBody [alertA, alertB, alertC])
      rfl (by decide) (by decide) rfl,
   (claim5_fetchers_total envAllDown (alerts_url "NC") "tok").2.1 TransportErr.timeout rfl,
   (claim5_fetchers_total envNws503 (alerts_url "NC") "tok").1.2.1
      ⟨503, some (Json.obj [])⟩ rfl (by decide),
   (claim5_fetchers_total envNwsBadBody (alerts_url "NC") "tok").1.2.2.1
      ⟨200, none⟩ rfl rfl⟩

theorem formatAlerts_ok_of_all {fs : List Json}
    (h : fs.all (fun f => !isFault (format_alert f)) = true) :
    ∃ ss, formatAlerts fs = Except.ok ss := by
  induction fs with
  | nil => exact ⟨[], rfl⟩
  | cons f fs ih =>
    simp only [List.all_cons, Bool.and_eq_true] at h
    obtain ⟨h1, h2⟩ := h
    obtain ⟨ss, hss⟩ := ih h2
    cases hf : format_alert f with
    | error e => rw [hf] at h1; simp [isFault] at h1
    | ok s => exact ⟨s :: ss, by simp [formatAlerts, hf, hss]⟩

/-- Counterexample to C6: the claim allows a fault only for a missing
`name` key or a missing `authorization` header, and says `get_alerts`
never raises for a failed userinfo fetch.  But when the userinfo fetch
transport-fails, `userinfo` is `None` and the log line's
`userinfo["name"]` subscript raises a TypeError. -/
theorem claim6_counterexample :
    (make_userinfo_request envAllDown "tok").1 = none
    ∧ (get_alerts envAllDown [("authorization", "tok")] "NC").1 =
        Except.error PyErr.typeError :=
  ⟨rfl, rfl⟩

/-- Claim C6 (amended): `get_alerts` never raises for expected absence
(no alerts, failed domain fetch) provided the alerts body is well shaped,
and it propagates an unhandled fault exactly when the `authorization`
header is missing, or the userinfo fetch failed (its `None` result makes
the `name` subscript raise), or the resolved userinfo lacks a usable
`name` key. -/
theorem claim6_amended_fault_conditions :
    (∀ (env : Env) (headers : List (String × String)) (state : String),
      lookupStr headers "authorization" = none →
      (get_alerts env headers state).1 = Except.error (PyErr.keyError "authorization"))
    ∧ (∀ (env : Env) (headers : List (String × String)) (state tok : String) (e : PyErr),
      lookupStr headers "authorization" = some tok →
      pySubscript (optToPy (make_userinfo_request env tok).1) "name" = Except.error e →
      (get_alerts env headers state).1 = Except.error e)
    ∧ (∀ (env : Env) (headers : List (String × String)) (state tok : String) (nmVal : Json),
      lookupStr headers "authorization" = some tok →
      pySubscript (optToPy (make_userinfo_request env tok).1) "name" = Except.ok nmVal →
      alertsShapeOK env state = true →
      isFault (get_alerts env headers state).1 = false) := by
  refine ⟨?_, ?_, ?_⟩
  · intro env headers state h
    simp [get_alerts, h]
  · intro env headers state tok e hauth hname
    simp only [get_alerts, hauth]
    rw [hname]
  · intro env headers state tok nmVal hauth hname hshape
    cases hdata : (make_nws_request env (alerts_url state)).1 with
    | none =>
      simp only [get_alerts, hauth]
      rw [hname, hdata]
      simp [optToPy, pyTruthy, isFault]
    | some j =>
      rw [alertsShapeOK, hdata] at hshape
      cases j with
      | obj kvs =>
        simp only [bodyShapeOK] at hshape
        cases hfeat : lookupKv kvs "features" with
        | none =>
          rcases kvs with _ | ⟨a, l⟩
          · simp only [get_alerts, hauth]
            rw [hname, hdata]
            simp [optToPy, pyTruthy, isFault]
          · have hany := lookupKv_any_false hfeat
            simp only [get_alerts, hauth]
            rw [hname, hdata]
            simp [optToPy, pyTruthy, pyContainsStr, hany, isFault]
        | some v =>
          rw [hfeat] at hshape
          cases v with
          | arr fs =>
            simp only [featuresShapeOK] at hshape
            rcases fs with _ | ⟨f, fs⟩
            · have hkv := lookupKv_isEmpty_false hfeat
              have hany := lookupKv_any_true hfeat
              simp only [get_alerts, hauth]
              rw [hname, hdata]
              simp [optToPy, pyTruthy, hkv, pyContainsStr, hany, pySubscript, hfeat, isFault]
            · obtain ⟨blocks, hfmt⟩ := formatAlerts_ok_of_all hshape
              rw [(get_alerts_join_eq env headers state tok nmVal kvs (f :: fs) blocks
                hauth hname hdata hfeat rfl hfmt)]
              rfl
          | null => simp [featuresShapeOK] at hshape
          | bool b => simp [featuresShapeOK] at hshape
          | num n => simp [featuresShapeOK] at hshape
          | str s => simp [featuresShapeOK] at hshape
          | obj kvs2 => simp [featuresShapeOK] at hshape
      | null => simp [bodyShapeOK] at hshape
      | bool b => simp [bodyShapeOK] at hshape
      | num n => simp [bodyShapeOK] at hshape
      | str s => simp [bodyShapeOK] at hshape
      | arr xs => simp [bodyShapeOK] at hshape

/-- Witness for the amended C6: a missing header is a KeyError fault; a
failed userinfo fetch is a TypeError fault; with credentials, userinfo and
a well-shaped alerts body there is no fault. -/
theorem claim6_witness :
    (get_alerts envAlerts3 [] "NC").1 = Except.error (PyErr.keyError "authorization")
    ∧ (get_alerts envAllDown [("authorization", "tok")] "NC").1 =
        Except.error PyErr.typeError
    ∧ isFault (get_alerts envAlerts3 [("authorization", "tok")] "NC").1 = false :=
  ⟨claim6_amended_fault_conditions.1 envAlerts3 [] "NC" rfl,
   claim6_amended_fault_conditions.2.1 envAllDown [("authorization", "tok")] "NC" "tok"
     PyErr.typeError rfl rfl,
   claim6_amended_fault_conditions.2.2 envAlerts3 [("authorization", "tok")] "NC" "tok"
     (Json.str "Alex") rfl rfl rfl⟩

/-- Counterexample to C7: the claim says a point response lacking
`properties.forecast` fails with an unhandled lookup fault rather than
returning either message.  But the empty-object response `\x7b\x7d` lacks
that path and, being falsy, makes `get_forecast` return the first message
instead of faulting. -/
theorem claim7_counterexample :
    (make_nws_request envPointsEmptyObj (points_url "35.78" "-78.64")).1 =
      some (Json.obj [])
    ∧ (get_forecast envPointsEmptyObj "35.78" "-78.64").1 =
        Except.ok "Unable to fetch forecast data for this location." :=
  ⟨rfl, rfl⟩

/-- Claim C7 (amended): `get_forecast` stages strictly.  A falsy point
result (absent fetch or empty body) yields the first message with no
second-stage request; a truthy point response without the
`properties.forecast` path propagates the lookup fault, again with no
second-stage request; a truthy point response with a forecast URL whose
second-stage fetch yields no value gives the second message after both
requests. -/
theorem claim7_amended_staging :
    (∀ (env : Env) (latitude longitude : String),
      pyTruthy (optToPy (make_nws_request env (points_url latitude longitude)).1) = false →
      get_forecast env latitude longitude =
        (Except.ok "Unable to fetch forecast data for this location.",
         [Request.nwsGet (points_url latitude longitude)]))
    ∧ (∀ (env : Env) (latitude longitude : String) (e : PyErr),
      pyTruthy (optToPy (make_nws_request env (points_url latitude longitude)).1) = true →
      pySubscript (optToPy (make_nws_request env (points_url latitude longitude)).1)
        "properties" = Except.error e →
      get_forecast env latitude longitude =
        (Except.error e, [Request.nwsGet (points_url latitude longitude)]))
    ∧ (∀ (env : Env) (latitude longitude : String) (props : Json) (e : PyErr),
      pyTruthy (optToPy (make_nws_request env (points_url latitude longitude)).1) = true →
      pySubscript (optToPy (make_nws_request env (points_url latitude longitude)).1)
        "properties" = Except.ok props →
      pySubscript props "forecast" = Except.error e →
      get_forecast env latitude longitude =
        (Except.error e, [Request.nwsGet (points_url latitude longitude)]))
    ∧ (∀ (env : Env) (latitude longitude furl : String) (props : Json),
      pyTruthy (optToPy (make_nws_request env (points_url latitude longitude)).1) = true →
      pySubscript (optToPy (make_nws_request env (points_url latitude longitude)).1)
        "properties" = Except.ok props →
      pySubscript props "forecast" = Except.ok (Json.str furl) →
      (make_nws_request env furl).1 = none →
      get_forecast env latitude longitude =
        (Except.ok "Unable to fetch detailed forecast.",
         [Request.nwsGet (points_url latitude longitude), Request.nwsGet furl])) := by
  refine ⟨?_, ?_, ?_, ?_⟩
  · intro env latitude longitude h
    have ht : (make_nws_request env (points_url latitude longitude)).2 =
      [Request.nwsGet (points_url latitude longitude)] := rfl
    simp only [get_forecast, h]
    simp [ht]
  · intro env latitude longitude e h hp
    have ht : (make_nws_request env (points_url latitude longitude)).2 =
      [Request.nwsGet (points_url latitude longitude)] := rfl
    simp only [get_forecast, h]
    rw [hp]
    simp [ht]
  · intro env latitude longitude props e h hp hf
    have ht : (make_nws_request env (points_url latitude longitude)).2 =
      [Request.nwsGet (points_url latitude longitude)] := rfl
    simp only [get_forecast, h]
    rw [hp]
    simp [hf, ht]
  · intro env latitude longitude furl props h hp hf hnone
    have ht : (make_nws_request env (points_url latitude longitude)).2 =
      [Request.nwsGet (points_url latitude longitude)] := rfl
    have ht2 : (make_nws_request env furl).2 = [Request.nwsGet furl] := rfl
    simp only [get_forecast, h]
    rw [hp]
    simp only [hf, make_nws_request_j]
    rw [hnone]
    simp [optToPy, pyTruthy, ht, ht2]

/-- Witness for the amended C7: a failed points fetch gives the first
message after one request; a truthy points body without the forecast key
faults; a failed second-stage fetch gives the second message after both
requests. -/
theorem claim7_witness :
    get_forecast envAllDown "35.78" "-78.64" =
      (Except.ok "Unable to fetch forecast data for this location.",
       [Request.nwsGet (points_url "35.78" "-78.64")])
    ∧ get_forecast envPointsNoForecastKey "35.78" "-78.64" =
      (Except.error (PyErr.keyError "forecast"),
       [Request.nwsGet (points_url "35.78" "-78.64")])
    ∧ get_forecast envForecastStage2Down "35.78" "-78.64" =
      (Except.ok "Unable to fetch detailed forecast.",
       [Request.nwsGet (points_url "35.78" "-78.64"), Request.nwsGet forecastURL]) :=
  ⟨claim7_amended_staging.1 envAllDown "35.78" "-78.64" rfl,
   claim7_amended_staging.2.2.1 envPointsNoForecastKey "35.78" "-78.64"
     (Json.obj [("gridId", Json.str "RAH")]) (PyErr.keyError "forecast") rfl rfl rfl,
   claim7_amended_staging.2.2.2 envForecastStage2Down "35.78" "-78.64" forecastURL
     (Json.obj [("forecast", Json.str forecastURL)]) rfl rfl rfl rfl⟩

/-- Counterexample to C8: the claim says `format_alert` has no failure
mode even on records deviating from the expected shape, but on a feature
record with no `properties` key the subscript raises a KeyError. -/
theorem claim8_counterexample :
    format_alert (Json.obj []) = Except.error (PyErr.keyError "properties") := rfl

/-- Claim C8 (amended): `format_alert` is a pure function; it is total
(produces its text block) on every feature record carrying a `properties`
record, but a feature without a `properties` key raises a lookup fault. -/
theorem claim8_amended_total_on_shaped :
    (∀ (fkvs pkvs : List (String × Json)),
      lookupKv fkvs "properties" = some (Json.obj pkvs) →
      ∃ s, format_alert (Json.obj fkvs) = Except.ok s)
    ∧ (∀ fkvs : List (String × Json),
      lookupKv fkvs "properties" = none →
      format_alert (Json.obj fkvs) = Except.error (PyErr.keyError "properties")) := by
  constructor
  · intro fkvs pkvs h
    exact ⟨_, format_alert_obj_eq fkvs pkvs h⟩
  · intro fkvs h
    simp [format_alert, pySubscript, h]

/-- Witness for the amended C8: a feature with empty `properties` formats;
a feature with only an `id` field raises the lookup fault. -/
theorem claim8_witness :
    (∃ s, format_alert (Json.obj [("properties", Json.obj [])]) = Except.ok s)
    ∧ format_alert (Json.obj [("id", Json.str "alert-1")]) =
        Except.error (PyErr.keyError "properties") :=
  ⟨claim8_amended_total_on_shaped.1 [("properties", Json.obj [])] [] rfl,
   claim8_amended_total_on_shaped.2 [("id", Json.str "alert-1")] rfl⟩

/-- Failure behaviour of the unguarded GET-verify-parse chain used by the
metadata routes. -/
theorem http_chain_fault (env : Env) (req : Request) :
    (∀ e, env req = Except.error e → isFaultJ (http_get_chain env req) = true)
    ∧ (∀ r, env req = Except.ok r → ¬(200 ≤ r.status ∧ r.status < 300) →
        isFaultJ (http_get_chain env req) = true)
    ∧ (∀ r, env req = Except.ok r → r.jsonBody = none →
        isFaultJ (http_get_chain env req) = true)
    ∧ (∀ r j, env req = Except.ok r → 200 ≤ r.status → r.status < 300 →
        r.jsonBody = some j → http_get_chain env req = Except.ok j) := by
  refine ⟨?_, ?_, ?_, ?_⟩
  · intro e h
    simp [http_get_chain, h, isFaultJ]
  · intro r h hs
    rw [http_get_chain, h]
    simp only [if_neg hs]
    rfl
  · intro r h hb
    by_cases hs : 200 ≤ r.status ∧ r.status < 300
    · rw [http_get_chain, h]
      simp only [if_pos hs, hb]
      rfl
    · rw [http_get_chain, h]
      simp only [if_neg hs]
      rfl
  · intro r j h h1 h2 hb
    rw [http_get_chain, h]
    simp only [if_pos (And.intro h1 h2), hb]

/-- Claim C9: each well-known metadata route performs, on every invocation,
exactly one fresh GET of the identity provider's corresponding endpoint;
on upstream success its response body is the upstream JSON unchanged, and
on upstream failure (transport error, non-2xx, unparseable body) the fault
is unhandled. -/
theorem claim9_metadata_routes (env : Env) :
    ((authorization_server_metadata env).2 = [Request.metaGet oauth_metadata_url]
     ∧ (∀ r j, env (Request.metaGet oauth_metadata_url) = Except.ok r →
        200 ≤ r.status → r.status < 300 → r.jsonBody = some j →
        (authorization_server_metadata env).1 = Except.ok j)
     ∧ (∀ e, env (Request.metaGet oauth_metadata_url) = Except.error e →
        isFaultJ (authorization_server_metadata env).1 = true)
     ∧ (∀ r, env (Request.metaGet oauth_metadata_url) = Except.ok r →
        ¬(200 ≤ r.status ∧ r.status < 300) →
        isFaultJ (authorization_server_metadata env).1 = true)
     ∧ (∀ r, env (Request.metaGet oauth_metadata_url) = Except.ok r →
        r.jsonBody = none → isFaultJ (authorization_server_metadata env).1 = true))
    ∧ ((openid_configuration_metadata env).2 = [Request.metaGet openid_metadata_url]
     ∧ (∀ r j, env (Request.metaGet openid_metadata_url) = Except.ok r →
        200 ≤ r.status → r.status < 300 → r.jsonBody = some j →
        (openid_configuration_metadata env).1 = Except.ok j)
     ∧ (∀ e, env (Request.metaGet openid_metadata_url) = Except.error e →
        isFaultJ (openid_configuration_metadata env).1 = true)
     ∧ (∀ r, env (Request.metaGet openid_metadata_url) = Except.ok r →
        ¬(200 ≤ r.status ∧ r.status < 300) →
        isFaultJ (openid_configuration_metadata env).1 = true)
     ∧ (∀ r, env (Request.metaGet openid_metadata_url) = Except.ok r →
        r.jsonBody = none → isFaultJ (openid_configuration_metadata env).1 = true)) :=
  ⟨⟨rfl, (http_chain_fault env (Request.metaGet oauth_metadata_url)).2.2.2,
    (http_chain_fault env (Request.metaGet oauth_metadata_url)).1,
    (http_chain_fault env (Request.metaGet oauth_metadata_url)).2.1,
    (http_chain_fault env (Request.metaGet oauth_metadata_url)).2.2.1⟩,
   ⟨rfl, (http_chain_fault env (Request.metaGet openid_metadata_url)).2.2.2,
    (http_chain_fault env (Request.metaGet openid_metadata_url)).1,
    (http_chain_fault env (Request.metaGet openid_metadata_url)).2.1,
    (http_chain_fault env (Request.metaGet openid_metadata_url)).2.2.1⟩⟩

/-- Witness for C9: with the provider up, both routes return the upstream
document unchanged; with the provider answering 503, both routes fault. -/
theorem claim9_witness :
    (authorization_server_metadata envMetaUp).1 = Except.ok metadataDoc
    ∧ (openid_configuration_metadata envMetaUp).1 = Except.ok metadataDoc
    ∧ isFaultJ (authorization_server_metadata envMeta503).1 = true
    ∧ isFaultJ (openid_configuration_metadata envMeta503).1 = true :=
  ⟨(claim9_metadata_routes envMetaUp).1.2.1 (okResp metadataDoc) metadataDoc
      rfl (by decide) (by decide) rfl,
   (claim9_metadata_routes envMetaUp).2.2.1 (okResp metadataDoc) metadataDoc
      rfl (by decide) (by decide) rfl,
   (claim9_metadata_routes envMeta503).1.2.2.2.1 ⟨503, some metadataDoc⟩ rfl (by decide),
   (claim9_metadata_routes envMeta503).2.2.2.2.1 ⟨503, some metadataDoc⟩ rfl (by decide)⟩

end Weather
